import Mathlib

/-!
Verification of the music web server (`src/main.rs`): a shallow embedding of
its data model, query builder, SQL semantics and the five HTTP handlers,
with theorems checking the specification's claims against the code.
-/

namespace MusicWebServer

/-- A persisted row of the `songs` table, as created by the schema
`id INTEGER PRIMARY KEY ASC, title TEXT NOT NULL, artist TEXT NOT NULL,
genre TEXT NOT NULL, play_count INTEGER DEFAULT 0`. -/
structure Row where
  id : Int
  title : String
  artist : String
  genre : String
  play_count : Int
deriving Repr, DecidableEq

/-- The `Song` struct of the source: every field is an `Option`, matching
`id: Option<i64>, title: Option<String>, artist: Option<String>,
genre: Option<String>, play_count: Option<i64>`. -/
structure Song where
  id : Option Int
  title : Option String
  artist : Option String
  genre : Option String
  play_count : Option Int
deriving Repr, DecidableEq

/-- The fields a client may put in a request body or query string for the
song shape (before serde's attributes are applied). -/
structure SongBody where
  id : Option Int
  title : Option String
  artist : Option String
  genre : Option String
  play_count : Option Int
deriving Repr, DecidableEq

/-- serde deserialization of `Song`: `id` and `play_count` carry
`#[serde(skip_deserializing)]`, so whatever the client supplied for them is
dropped and they come out as `None`; `title`/`artist`/`genre` carry
`#[serde(default)]`, so an absent field becomes `None`. -/
def deserializeSong (b : SongBody) : Song :=
  { id := none, title := b.title, artist := b.artist, genre := b.genre,
    play_count := none }

/-- Minimal JSON value model for the handler responses. -/
inductive Json where
  | str : String → Json
  | num : Int → Json
  | obj : List (String × Json) → Json
  | arr : List Json → Json
deriving Repr

/-- serde serialization of a returned row (all five columns non-null). -/
def songJson (r : Row) : Json :=
  .obj [("id", .num r.id), ("title", .str r.title), ("artist", .str r.artist),
        ("genre", .str r.genre), ("play_count", .num r.play_count)]

/-- The `json!({"error":"Song not found"})` literal of `play_song`. -/
def notFoundJson : Json :=
  .obj [("error", .str "Song not found")]

/-!  ### SQLite `LIKE` semantics

`likeMatch pat s` is SQLite's `LIKE` on already case-folded operands:
`%` matches any sequence of characters, `_` matches exactly one character,
any other pattern character matches itself.  The handlers always compare
`LOWER(column) LIKE LOWER(pattern)`, which we model by ASCII-lowering both
sides (SQLite's `LOWER` and its `LIKE` fold ASCII case only, so folding both
operands first and matching case-sensitively is equivalent). -/

def likeMatch : List Char → List Char → Bool
  | [], s => s.isEmpty
  | p :: ps, s =>
    if p = '%' then s.tails.any (fun t => likeMatch ps t)
    else
      match s with
      | [] => false
      | c :: cs => (if p = '_' then true else p == c) && likeMatch ps cs

/-- `LOWER(field) LIKE LOWER(pat)` for one column. -/
def ciLike (pat field : String) : Bool :=
  likeMatch (pat.data.map Char.toLower) (field.data.map Char.toLower)

example : ciLike "%daft%" "Daft Punk" = true := by decide
example : ciLike "%punk%" "Classical Choir" = false := by decide
example : ciLike "%%" "anything" = true := by decide
example : ciLike "%%%" "no percent here" = true := by decide

/-!  ### The search query builder (`search_song`, lines 161–195) -/

/-- The `where_exprs` vector built by `search_song`: one
`LOWER(col) LIKE LOWER(?)` predicate pushed per present field, in the fixed
order title, artist, genre. -/
def where_exprs (params : Song) : List String :=
  (if params.title.isSome then ["LOWER(title) LIKE LOWER(?)"] else []) ++
  (if params.artist.isSome then ["LOWER(artist) LIKE LOWER(?)"] else []) ++
  (if params.genre.isSome then ["LOWER(genre) LIKE LOWER(?)"] else [])

/-- The `sql_stmt` string built by `search_song`: an unfiltered SELECT when
no field is present, otherwise the predicates joined with `" AND "` after a
WHERE (whitespace exactly as in the Rust format literal). -/
def sql_stmt (params : Song) : String :=
  if (where_exprs params).isEmpty then
    "SELECT * FROM songs "
  else
    "\n        SELECT * FROM songs\n        WHERE " ++
      String.intercalate " AND " (where_exprs params)

/-- The values bound to the query by `search_song`, in the order of the
three `if let Some(..)` blocks (title, artist, genre), each wrapped as
`%value%`. -/
def bind_values (params : Song) : List String :=
  (match params.title with | some t => ["%" ++ t ++ "%"] | none => []) ++
  (match params.artist with | some a => ["%" ++ a ++ "%"] | none => []) ++
  (match params.genre with | some g => ["%" ++ g ++ "%"] | none => [])

/-- The (column, value) pairs of the fields present in a search request, in
the order title, artist, genre.  Used to relate predicate emission order to
bind order. -/
def presentFields (params : Song) : List (String × String) :=
  (match params.title with | some t => [("title", t)] | none => []) ++
  (match params.artist with | some a => [("artist", a)] | none => []) ++
  (match params.genre with | some g => [("genre", g)] | none => [])

/-- Statement the specification describes, written out per combination of
present fields: one `LOWER(column) LIKE LOWER(?)` predicate per present
field joined with AND; all absent gives the unfiltered SELECT. -/
def claimedSearchStmt (t a g : Bool) : String :=
  match t, a, g with
  | false, false, false => "SELECT * FROM songs "
  | true, false, false =>
    "\n        SELECT * FROM songs\n        WHERE LOWER(title) LIKE LOWER(?)"
  | false, true, false =>
    "\n        SELECT * FROM songs\n        WHERE LOWER(artist) LIKE LOWER(?)"
  | false, false, true =>
    "\n        SELECT * FROM songs\n        WHERE LOWER(genre) LIKE LOWER(?)"
  | true, true, false =>
    "\n        SELECT * FROM songs\n        WHERE LOWER(title) LIKE LOWER(?) AND LOWER(artist) LIKE LOWER(?)"
  | true, false, true =>
    "\n        SELECT * FROM songs\n        WHERE LOWER(title) LIKE LOWER(?) AND LOWER(genre) LIKE LOWER(?)"
  | false, true, true =>
    "\n        SELECT * FROM songs\n        WHERE LOWER(artist) LIKE LOWER(?) AND LOWER(genre) LIKE LOWER(?)"
  | true, true, true =>
    "\n        SELECT * FROM songs\n        WHERE LOWER(title) LIKE LOWER(?) AND LOWER(artist) LIKE LOWER(?) AND LOWER(genre) LIKE LOWER(?)"

/-!  ### Executing the built statement

The statement emits predicates in order title, artist, genre and the values
are bound positionally in that same order, so the row filter pairs each
`LOWER(col) LIKE LOWER(?)` with the `%value%` of its own field. -/

/-- One optional filter: an absent field constrains nothing; a present field
requires `LOWER(col) LIKE LOWER('%value%')`. -/
def optLike : Option String → String → Bool
  | none, _ => true
  | some v, field => ciLike ("%" ++ v ++ "%") field

/-- Whether a row satisfies the WHERE clause of the built search statement. -/
def rowMatches (params : Song) (r : Row) : Bool :=
  optLike params.title r.title && optLike params.artist r.artist &&
    optLike params.genre r.genre

/-- Result set of running the built search statement over the table. -/
def searchQuery (db : List Row) (params : Song) : List Row :=
  db.filter (rowMatches params)

/-!  ### Handlers -/

/-- `search_song`'s match on `query.fetch_all`: rows are serialized as a
JSON array; a query error is reported as the JSON string
`"Failed to add song: {e}"` (sic — copied from the add handler). -/
def searchRespond : Except String (List Row) → Json
  | .ok songs => .arr (songs.map songJson)
  | .error e => .str ("Failed to add song: " ++ e)

/-- The `search_song` handler on the non-error path. -/
def search_song (db : List Row) (params : Song) : Json :=
  searchRespond (.ok (searchQuery db params))

/-- The rowid SQLite assigns to a new row of `songs`: one more than the
largest existing rowid (1 for an empty table). -/
def nextRowId (db : List Row) : Int :=
  (db.map Row.id).foldr max 0 + 1

/-- The INSERT .. RETURNING statement of `add_song`.  Binding a `None`
field binds SQL NULL, which violates the column's NOT NULL constraint and
makes the query fail; otherwise the row is appended with a fresh id and the
`play_count` DEFAULT 0, and returned. -/
def insertQuery (db : List Row) (params : Song) :
    Except String (Option Row × List Row) :=
  match params.title, params.artist, params.genre with
  | some t, some a, some g =>
    let r : Row := { id := nextRowId db, title := t, artist := a, genre := g,
                     play_count := 0 }
    .ok (some r, db ++ [r])
  | none, _, _ => .error "NOT NULL constraint failed: songs.title"
  | _, none, _ => .error "NOT NULL constraint failed: songs.artist"
  | _, _, none => .error "NOT NULL constraint failed: songs.genre"

/-- `add_song`'s match on `fetch_optional`: the returned row as JSON, the
JSON string `"Failed to add song"` when zero rows come back, and the JSON
string `"Failed to add song: {e}"` on a query error. -/
def addRespond : Except String (Option Row) → Json
  | .ok (some s) => songJson s
  | .ok none => .str "Failed to add song"
  | .error e => .str ("Failed to add song: " ++ e)

/-- The `add_song` handler: runs the insert and maps its outcome to the
response; on error the table is unchanged. -/
def add_song (db : List Row) (payload : Song) : Json × List Row :=
  match insertQuery db payload with
  | .ok (row, db2) => (addRespond (.ok row), db2)
  | .error e => (addRespond (.error e), db)

/-- The UPDATE .. RETURNING statement of `play_song`: every row whose id
matches gets `play_count+1` (at most one row, since id is the primary key);
`fetch_optional` yields the first updated row, if any. -/
def playQuery (db : List Row) (songId : Int) : Option Row × List Row :=
  let updated := db.map (fun r =>
    if r.id == songId then { r with play_count := r.play_count + 1 } else r)
  (updated.find? (fun r => r.id == songId), updated)

/-- `play_song`'s match on `fetch_optional`: the updated row as JSON; the
`{"error":"Song not found"}` object both when no row matched and on any
query error. -/
def playRespond : Except String (Option Row) → Json
  | .ok (some s) => songJson s
  | .ok none => notFoundJson
  | .error _ => notFoundJson

/-- The `play_song` handler on the non-error path. -/
def play_song (db : List Row) (songId : Int) : Json × List Row :=
  (playRespond (.ok (playQuery db songId).1), (playQuery db songId).2)

/-- The `welcome` handler. -/
def welcome : String :=
  "Welcome to the Rust-powered web server!"

/-- One call to `increment_count`: the u128 counter is incremented (wrapping
at 2^128) and the response reads the value back after the increment. -/
def increment_count (c : Nat) : Nat × String :=
  let c2 := (c + 1) % 2 ^ 128
  (c2, "Visit count: " ++ toString c2)

/-- Counter state after `n` calls; `site_visit_count` starts at 0. -/
def visitState : Nat → Nat
  | 0 => 0
  | n + 1 => (increment_count (visitState n)).1

/-!  ### HTTP responses and routing -/

/-- Body of an HTTP response: the handlers answer either JSON or plain
text. -/
inductive RespBody where
  | json : Json → RespBody
  | text : String → RespBody
deriving Repr

/-- An HTTP response with its status code. -/
structure HttpResponse where
  status : Nat
  body : RespBody
deriving Repr

/-- axum's `Json(..).into_response()`: JSON body with status 200. -/
def jsonResponse (j : Json) : HttpResponse :=
  { status := 200, body := .json j }

/-- axum's `String` responder: plain text with status 200. -/
def textResponse (s : String) : HttpResponse :=
  { status := 200, body := .text s }

/-- Rust's `i64::from_str`, used by the `Path<i64>` extractor of the play
route: an optional sign, then at least one ASCII digit and nothing else,
rejecting values outside the i64 range. -/
def parseI64 (s : String) : Option Int :=
  let signDigits : Int × List Char :=
    match s.data with
    | '+' :: rest => (1, rest)
    | '-' :: rest => (-1, rest)
    | l => (1, l)
  let digits := signDigits.2
  if digits.isEmpty then none
  else if digits.all Char.isDigit then
    let n : Nat := digits.foldl (fun acc c => acc * 10 + (c.toNat - '0'.toNat)) 0
    let v : Int := signDigits.1 * n
    if -9223372036854775808 ≤ v ∧ v ≤ 9223372036854775807 then some v
    else none
  else none

/-- The full `/songs/play/{id}` route.  Modelled from axum's `Path<i64>`
extractor: a path segment that fails i64 parsing is rejected before the
handler runs with status 400 (Bad Request); otherwise the handler's JSON
answer is returned with status 200. -/
def playRoute (db : List Row) (idSegment : String) : HttpResponse × List Row :=
  match parseI64 idSegment with
  | some i =>
    let res := play_song db i
    (jsonResponse res.1, res.2)
  | none => ({ status := 400, body := .text "Invalid URL" }, db)

example : parseI64 "42" = some 42 := by decide
example : parseI64 "-7" = some (-7) := by decide
example : parseI64 "abc" = none := by decide
example : parseI64 "" = none := by decide

/-!  ### Lemmas about `likeMatch` -/

theorem likeMatch_nil (s : List Char) : likeMatch [] s = s.isEmpty := by
  simp [likeMatch]

theorem likeMatch_pct (ps : List Char) (s : List Char) :
    likeMatch ('%' :: ps) s = s.tails.any (fun t => likeMatch ps t) := by
  simp [likeMatch]

/-- `%` alone matches every string: the empty suffix is matched by the
empty pattern. -/
theorem likeMatch_pct_nil (s : List Char) : likeMatch ['%'] s = true := by
  rw [likeMatch_pct]
  rw [List.any_eq_true]
  exact ⟨[], by simp [List.mem_tails], by simp [likeMatch]⟩

/-- `%%` matches every string. -/
theorem likeMatch_pct_pct (s : List Char) : likeMatch ['%', '%'] s = true := by
  rw [likeMatch_pct, List.any_eq_true]
  exact ⟨s, by simp [List.mem_tails], likeMatch_pct_nil s⟩

/-- `%%%` (the pattern produced by the search value `"%"`) matches every
string. -/
theorem likeMatch_pct_pct_pct (s : List Char) :
    likeMatch ['%', '%', '%'] s = true := by
  rw [likeMatch_pct, List.any_eq_true]
  exact ⟨s, by simp [List.mem_tails], likeMatch_pct_pct s⟩

/-- `%_%` matches exactly the nonempty strings. -/
theorem likeMatch_pct_underscore_pct (s : List Char) (hs : s ≠ []) :
    likeMatch ['%', '_', '%'] s = true := by
  rw [likeMatch_pct, List.any_eq_true]
  refine ⟨s, by simp [List.mem_tails], ?_⟩
  match s, hs with
  | c :: cs, _ =>
    show likeMatch ['_', '%'] (c :: cs) = true
    simp [likeMatch, likeMatch_pct_nil]

/-- Prefixing a pattern with `%` preserves any match (`%` may consume
nothing). -/
theorem likeMatch_cons_pct (ps : List Char) (s : List Char)
    (h : likeMatch ps s = true) : likeMatch ('%' :: ps) s = true := by
  rw [likeMatch_pct, List.any_eq_true]
  exact ⟨s, by simp [List.mem_tails], h⟩

/-- Appending `%` to a pattern preserves any match (`%` may consume
nothing). -/
theorem likeMatch_append_pct (ps : List Char) (s : List Char)
    (h : likeMatch ps s = true) : likeMatch (ps ++ ['%']) s = true := by
  induction ps generalizing s with
  | nil =>
    have : s = [] := by simpa [likeMatch_nil, List.isEmpty_iff] using h
    subst this
    exact likeMatch_pct_nil []
  | cons p ps ih =>
    by_cases hp : p = '%'
    · subst hp
      rw [likeMatch_pct, List.any_eq_true] at h
      obtain ⟨t, ht, hmatch⟩ := h
      rw [List.cons_append, likeMatch_pct, List.any_eq_true]
      exact ⟨t, ht, ih t hmatch⟩
    · match s with
      | [] => simp [likeMatch, hp] at h
      | c :: cs =>
        rw [List.cons_append]
        simp only [likeMatch, hp, if_false, Bool.and_eq_true] at h ⊢
        exact ⟨h.1, ih cs h.2⟩

/-- Every string, read as a pattern, matches itself (`_` matches the
underscore itself, `%` matches the percent sign itself). -/
theorem likeMatch_self (s : List Char) : likeMatch s s = true := by
  induction s with
  | nil => simp [likeMatch]
  | cons c cs ih =>
    by_cases hc : c = '%'
    · subst hc
      rw [likeMatch_pct, List.any_eq_true]
      exact ⟨cs, by simp [List.mem_tails, List.suffix_cons], ih⟩
    · simp only [likeMatch, hc, if_false, Bool.and_eq_true]
      refine ⟨?_, ih⟩
      by_cases hu : c = '_' <;> simp [hu]

/-!  ### Lemmas about `ciLike` patterns built by the handlers -/

/-- The pattern `%v%` (lower-cased) always matches `v` itself: `%` can match
the empty string and every character, `_` or `%` included, matches itself. -/
theorem ciLike_wrap_self (v : String) : ciLike ("%" ++ v ++ "%") v = true := by
  show likeMatch (("%" ++ v ++ "%").data.map Char.toLower)
      (v.data.map Char.toLower) = true
  have hd : ("%" ++ v ++ "%").data = '%' :: (v.data ++ ['%']) := by
    rw [String.data_append, String.data_append]
    rfl
  rw [hd, List.map_cons, List.map_append]
  have hpct : Char.toLower '%' = '%' := rfl
  rw [hpct]
  exact likeMatch_cons_pct _ _
    (by rw [show (['%'].map Char.toLower) = ['%'] from rfl]
        exact likeMatch_append_pct _ _ (likeMatch_self _))

/-- The pattern built from the empty search value, `%%`, matches every
string. -/
theorem ciLike_wrap_empty (f : String) : ciLike ("%" ++ "" ++ "%") f = true := by
  show likeMatch (("%" ++ "" ++ "%").data.map Char.toLower)
      (f.data.map Char.toLower) = true
  rw [show ("%" ++ "" ++ "%").data.map Char.toLower = ['%', '%'] from rfl]
  exact likeMatch_pct_pct _

/-- The pattern built from the search value `"%"`, namely `%%%`, matches
every string. -/
theorem ciLike_wrap_pct (f : String) : ciLike ("%" ++ "%" ++ "%") f = true := by
  show likeMatch (("%" ++ "%" ++ "%").data.map Char.toLower)
      (f.data.map Char.toLower) = true
  rw [show ("%" ++ "%" ++ "%").data.map Char.toLower = ['%', '%', '%'] from rfl]
  exact likeMatch_pct_pct_pct _

/-- The pattern built from the search value `"_"`, namely `%_%`, matches
every nonempty string. -/
theorem ciLike_wrap_underscore (f : String) (hf : f ≠ "") :
    ciLike ("%" ++ "_" ++ "%") f = true := by
  show likeMatch (("%" ++ "_" ++ "%").data.map Char.toLower)
      (f.data.map Char.toLower) = true
  rw [show ("%" ++ "_" ++ "%").data.map Char.toLower = ['%', '_', '%'] from rfl]
  apply likeMatch_pct_underscore_pct
  intro hnil
  apply hf
  apply String.ext
  simpa using hnil

/-!  ### Lemmas about the play query -/

/-- The row the UPDATE writes for the matching id. -/
def bumpPlay (r : Row) : Row :=
  { r with play_count := r.play_count + 1 }

theorem playQuery_found (db : List Row) (i : Int) (r : Row)
    (huniq : (db.map Row.id).Nodup) (hr : r ∈ db) (hid : r.id = i) :
    (playQuery db i).1 = some (bumpPlay r) := by
  show (db.map (fun s => if s.id == i then bumpPlay s else s)).find?
      (fun s => s.id == i) = some (bumpPlay r)
  induction db with
  | nil => cases hr
  | cons h tl ih =>
    rw [List.map_cons, List.nodup_cons] at *
    by_cases hh : h.id = i
    · rw [if_pos (by simpa using hh)]
      rw [List.find?_cons_of_pos _ (by simp [bumpPlay, hh])]
      have hrh : r = h := by
        rcases List.mem_cons.mp hr with h1 | h1
        · exact h1
        · exfalso
          have hmem : r.id ∈ tl.map Row.id := List.mem_map_of_mem Row.id h1
          rw [hid, ← hh] at hmem
          exact huniq.1 hmem
      rw [hrh]
    · rw [if_neg (by simpa using hh)]
      rw [List.find?_cons_of_neg _ (by simpa using hh)]
      refine ih huniq.2 ?_
      rcases List.mem_cons.mp hr with h1 | h1
      · exact absurd (h1 ▸ hid) hh
      · exact h1

theorem playQuery_notFound (db : List Row) (i : Int)
    (hnone : ∀ r ∈ db, r.id ≠ i) : playQuery db i = (none, db) := by
  unfold playQuery
  have hmap : db.map (fun r =>
      if r.id == i then { r with play_count := r.play_count + 1 } else r) = db := by
    conv_rhs => rw [← List.map_id db]
    apply List.map_congr_left
    intro s hs
    simp [hnone s hs]
  rw [hmap]
  simp only [Prod.mk.injEq, and_true]
  rw [List.find?_eq_none]
  intro s hs
  simp [hnone s hs]

/-!  ### Lemmas about the fresh rowid -/

theorem foldr_max_nonneg (l : List Int) : 0 ≤ l.foldr max 0 := by
  induction l with
  | nil => exact le_refl 0
  | cons x xs ih => exact le_trans ih (le_max_right x _)

theorem mem_le_foldr_max (l : List Int) (x : Int) (hx : x ∈ l) :
    x ≤ l.foldr max 0 := by
  induction l with
  | nil => cases hx
  | cons y ys ih =>
    simp only [List.foldr_cons]
    rcases List.mem_cons.mp hx with h1 | h1
    · subst h1
      exact le_max_left x _
    · exact le_trans (ih h1) (le_max_right y _)

theorem nextRowId_pos (db : List Row) : 0 < nextRowId db :=
  lt_of_le_of_lt (foldr_max_nonneg _) (lt_add_one _)

theorem nextRowId_fresh (db : List Row) (r : Row) (hr : r ∈ db) :
    r.id ≠ nextRowId db := by
  have : r.id ≤ (db.map Row.id).foldr max 0 :=
    mem_le_foldr_max _ _ (List.mem_map_of_mem Row.id hr)
  exact ne_of_lt (lt_of_le_of_lt this (lt_add_one _))

/-!  ### Claims -/

/-- C1: for every song persisted with id `i`, a play request for `i`
increments that song's `play_count` by exactly 1 (leaving other rows and
the table size unchanged) and returns the updated song object; a play
request for an id with no matching row returns `{"error":"Song not found"}`
and leaves every stored song unchanged; the same error object is returned
on any query error. -/
theorem play_song_spec :
    (∀ (db : List Row) (i : Int) (r : Row),
        (db.map Row.id).Nodup → r ∈ db → r.id = i →
        (play_song db i).1 = songJson (bumpPlay r) ∧
        bumpPlay r ∈ (play_song db i).2 ∧
        (play_song db i).2.length = db.length ∧
        (∀ s ∈ db, s.id ≠ i → s ∈ (play_song db i).2)) ∧
    (∀ (db : List Row) (i : Int), (∀ r ∈ db, r.id ≠ i) →
        play_song db i = (notFoundJson, db)) ∧
    (∀ e : String, playRespond (.error e) = notFoundJson) := by
  refine ⟨?_, ?_, fun e => rfl⟩
  · intro db i r huniq hr hid
    refine ⟨?_, ?_, ?_, ?_⟩
    · show playRespond (.ok (playQuery db i).1) = _
      rw [playQuery_found db i r huniq hr hid]
      rfl
    · show bumpPlay r ∈ db.map fun s =>
        if s.id == i then { s with play_count := s.play_count + 1 } else s
      have := List.mem_map_of_mem
        (fun s => if s.id == i then bumpPlay s else s) hr
      simpa [bumpPlay, hid] using this
    · show (db.map fun s =>
        if s.id == i then { s with play_count := s.play_count + 1 } else s).length
          = db.length
      exact List.length_map _ _
    · intro s hs hsid
      show s ∈ db.map fun s =>
        if s.id == i then { s with play_count := s.play_count + 1 } else s
      have := List.mem_map_of_mem
        (fun s => if s.id == i then bumpPlay s else s) hs
      simpa [bumpPlay, hsid] using this
  · intro db i hnone
    show (playRespond (.ok (playQuery db i).1), (playQuery db i).2) = _
    rw [playQuery_notFound db i hnone]
    rfl

/-- Witness for C1 at a concrete table: playing id 1 on a one-row table
returns the row with `play_count` bumped from 0 to 1. -/
theorem play_song_spec_witness :
    (play_song [⟨1, "Imagine", "John Lennon", "Rock", 0⟩] 1).1 =
      songJson (bumpPlay ⟨1, "Imagine", "John Lennon", "Rock", 0⟩) :=
  (play_song_spec.1 [⟨1, "Imagine", "John Lennon", "Rock", 0⟩] 1
    ⟨1, "Imagine", "John Lennon", "Rock", 0⟩ (by decide) (by decide) rfl).1

/-- C2: for every combination of present/absent title, artist and genre,
the built SQL statement is the one the spec describes (one
`LOWER(column) LIKE LOWER(?)` predicate per present field joined with
` AND `, and the unfiltered `SELECT * FROM songs ` when all three are
absent), and each of the three predicates occurs exactly once when its
field is present and never when it is absent. -/
theorem sql_stmt_spec (params : Song) :
    sql_stmt params =
      claimedSearchStmt params.title.isSome params.artist.isSome
        params.genre.isSome ∧
    (where_exprs params).count "LOWER(title) LIKE LOWER(?)" =
      (if params.title.isSome then 1 else 0) ∧
    (where_exprs params).count "LOWER(artist) LIKE LOWER(?)" =
      (if params.artist.isSome then 1 else 0) ∧
    (where_exprs params).count "LOWER(genre) LIKE LOWER(?)" =
      (if params.genre.isSome then 1 else 0) := by
  obtain ⟨i, t, a, g, pc⟩ := params
  cases t <;> cases a <;> cases g <;> exact ⟨rfl, rfl, rfl, rfl⟩

/-- C3: the predicates and the bound values are produced from the same
ordered list of present fields (title, then artist, then genre), so the
i-th bound value belongs to the i-th emitted predicate, and every bound
value is the provided string wrapped in `%` on both ends. -/
theorem bind_order_spec (params : Song) :
    where_exprs params =
      (presentFields params).map
        (fun p => "LOWER(" ++ p.1 ++ ") LIKE LOWER(?)") ∧
    bind_values params =
      (presentFields params).map (fun p => "%" ++ p.2 ++ "%") := by
  obtain ⟨i, t, a, g, pc⟩ := params
  cases t <;> cases a <;> cases g <;> exact ⟨rfl, rfl⟩

/-- Shared helper: what `add_song` does when all three creation fields are
present: it returns the freshly inserted row and appends it to the table. -/
theorem add_song_eq (db : List Row) (body : SongBody) (t a g : String)
    (ht : body.title = some t) (ha : body.artist = some a)
    (hg : body.genre = some g) :
    add_song db (deserializeSong body) =
      (songJson ⟨nextRowId db, t, a, g, 0⟩,
       db ++ [⟨nextRowId db, t, a, g, 0⟩]) := by
  have hpay : deserializeSong body =
      { id := none, title := some t, artist := some a, genre := some g,
        play_count := none } := by
    simp [deserializeSong, ht, ha, hg]
  rw [hpay]
  rfl

/-- C4: for every add request with title, artist and genre provided, the
insert returns a song object whose id is the freshly assigned positive
integer (not equal to any stored id), whose `play_count` is 0 and whose
title/artist/genre equal the provided values; an `id` or `play_count`
supplied in the body is dropped by deserialization and has no effect. -/
theorem add_song_spec :
    (∀ (db : List Row) (body : SongBody) (t a g : String),
        body.title = some t → body.artist = some a → body.genre = some g →
        (add_song db (deserializeSong body)).1 =
          songJson ⟨nextRowId db, t, a, g, 0⟩ ∧
        (add_song db (deserializeSong body)).2 =
          db ++ [⟨nextRowId db, t, a, g, 0⟩] ∧
        0 < nextRowId db ∧
        (∀ r ∈ db, r.id ≠ nextRowId db)) ∧
    (∀ body : SongBody, (deserializeSong body).id = none ∧
        (deserializeSong body).play_count = none) ∧
    (∀ (db : List Row) (body : SongBody) (i pc : Option Int),
        add_song db (deserializeSong { body with id := i, play_count := pc }) =
          add_song db (deserializeSong body)) := by
  refine ⟨?_, fun body => ⟨rfl, rfl⟩, fun db body i pc => rfl⟩
  intro db body t a g ht ha hg
  rw [add_song_eq db body t a g ht ha hg]
  exact ⟨rfl, rfl, nextRowId_pos db, fun r hr => nextRowId_fresh db r hr⟩

/-- Witness for C4: inserting into the empty table with a body that also
(illegally) supplies `id` and `play_count` returns the row with the fresh
id and `play_count` 0. -/
theorem add_song_spec_witness :
    (add_song []
        (deserializeSong ⟨some 7, some "Imagine", some "John Lennon",
          some "Rock", some 99⟩)).1 =
      songJson ⟨nextRowId [], "Imagine", "John Lennon", "Rock", 0⟩ :=
  (add_song_spec.1 [] ⟨some 7, some "Imagine", some "John Lennon",
    some "Rock", some 99⟩ "Imagine" "John Lennon" "Rock" rfl rfl rfl).1

/-- C5: round-trip — the row returned by a successful insert is found again
when any one of its returned fields is fed back as the corresponding search
filter. -/
theorem roundtrip_spec (db : List Row) (body : SongBody) (t a g : String)
    (ht : body.title = some t) (ha : body.artist = some a)
    (hg : body.genre = some g) :
    (⟨nextRowId db, t, a, g, 0⟩ : Row) ∈
      searchQuery (add_song db (deserializeSong body)).2
        ⟨none, some t, none, none, none⟩ ∧
    (⟨nextRowId db, t, a, g, 0⟩ : Row) ∈
      searchQuery (add_song db (deserializeSong body)).2
        ⟨none, none, some a, none, none⟩ ∧
    (⟨nextRowId db, t, a, g, 0⟩ : Row) ∈
      searchQuery (add_song db (deserializeSong body)).2
        ⟨none, none, none, some g, none⟩ := by
  rw [add_song_eq db body t a g ht ha hg]
  refine ⟨List.mem_filter.mpr ⟨by simp, ?_⟩,
          List.mem_filter.mpr ⟨by simp, ?_⟩,
          List.mem_filter.mpr ⟨by simp, ?_⟩⟩ <;>
    simp [rowMatches, optLike, ciLike_wrap_self]

/-- Witness for C5: the inserted "Imagine" row is returned when searching
for its exact title. -/
theorem roundtrip_spec_witness :
    (⟨nextRowId [], "Imagine", "John Lennon", "Rock", 0⟩ : Row) ∈
      searchQuery (add_song []
          (deserializeSong ⟨none, some "Imagine", some "John Lennon",
            some "Rock", none⟩)).2
        ⟨none, some "Imagine", none, none, none⟩ :=
  (roundtrip_spec [] ⟨none, some "Imagine", some "John Lennon", some "Rock",
    none⟩ "Imagine" "John Lennon" "Rock" rfl rfl rfl).1

/-- C6: a field supplied as the empty string is still present, so the
builder still emits its predicate and binds the pattern `%%`, which matches
every row — the empty-string filter behaves as match-all, not as absent. -/
theorem empty_string_filter_spec :
    (∀ (i pc : Option Int) (a g : Option String),
        where_exprs ⟨i, some "", a, g, pc⟩ =
          "LOWER(title) LIKE LOWER(?)" :: where_exprs ⟨i, none, a, g, pc⟩ ∧
        bind_values ⟨i, some "", a, g, pc⟩ =
          "%%" :: bind_values ⟨i, none, a, g, pc⟩) ∧
    (∀ (i pc : Option Int) (t g : Option String),
        where_exprs ⟨i, t, some "", g, pc⟩ =
          where_exprs ⟨i, t, none, none, pc⟩ ++
            ["LOWER(artist) LIKE LOWER(?)"] ++
            where_exprs ⟨i, none, none, g, pc⟩ ∧
        bind_values ⟨i, t, some "", g, pc⟩ =
          bind_values ⟨i, t, none, none, pc⟩ ++ ["%%"] ++
            bind_values ⟨i, none, none, g, pc⟩) ∧
    (∀ (i pc : Option Int) (t a : Option String),
        where_exprs ⟨i, t, a, some "", pc⟩ =
          where_exprs ⟨i, t, a, none, pc⟩ ++ ["LOWER(genre) LIKE LOWER(?)"] ∧
        bind_values ⟨i, t, a, some "", pc⟩ =
          bind_values ⟨i, t, a, none, pc⟩ ++ ["%%"]) ∧
    (∀ f : String, optLike (some "") f = true) ∧
    (∀ (db : List Row) (i pc : Option Int) (a g : Option String),
        searchQuery db ⟨i, some "", a, g, pc⟩ =
          searchQuery db ⟨i, none, a, g, pc⟩) ∧
    (∀ (db : List Row) (i pc : Option Int) (t g : Option String),
        searchQuery db ⟨i, t, some "", g, pc⟩ =
          searchQuery db ⟨i, t, none, g, pc⟩) ∧
    (∀ (db : List Row) (i pc : Option Int) (t a : Option String),
        searchQuery db ⟨i, t, a, some "", pc⟩ =
          searchQuery db ⟨i, t, a, none, pc⟩) := by
  have hopt : ∀ f : String, optLike (some "") f = true := fun f =>
    ciLike_wrap_empty f
  refine ⟨fun i pc a g => ⟨rfl, rfl⟩, ?_, ?_, hopt, ?_, ?_, ?_⟩
  · intro i pc t g
    cases t <;> cases g <;> exact ⟨rfl, rfl⟩
  · intro i pc t a
    cases t <;> cases a <;> exact ⟨rfl, rfl⟩
  · intro db i pc a g
    apply List.filter_congr
    intro r hr
    show (optLike (some "") r.title && optLike a r.artist &&
        optLike g r.genre) = (optLike none r.title && optLike a r.artist &&
        optLike g r.genre)
    rw [hopt]
    rfl
  · intro db i pc t g
    apply List.filter_congr
    intro r hr
    show (optLike t r.title && optLike (some "") r.artist &&
        optLike g r.genre) = (optLike t r.title && optLike none r.artist &&
        optLike g r.genre)
    rw [hopt]
    rfl
  · intro db i pc t a
    apply List.filter_congr
    intro r hr
    show (optLike t r.title && optLike a r.artist &&
        optLike (some "") r.genre) = (optLike t r.title &&
        optLike a r.artist && optLike none r.genre)
    rw [hopt]
    rfl

/-- C7: the visit counter starts at zero, each call increments it by one
and reads the value back after the increment, and (while the u128 cannot
wrap, i.e. for fewer than 2^128 calls) the n-th call since process start
answers the plain text `"Visit count: {n}"`. -/
theorem visit_count_spec :
    visitState 0 = 0 ∧
    (∀ n : Nat, 0 < n → n < 2 ^ 128 →
        (increment_count (visitState (n - 1))).2 =
          "Visit count: " ++ toString n) := by
  refine ⟨rfl, ?_⟩
  have hstate : ∀ n : Nat, n < 2 ^ 128 → visitState n = n := by
    intro n
    induction n with
    | zero => intro _; rfl
    | succ m ih =>
      intro h
      have hm : m < 2 ^ 128 := lt_trans (Nat.lt_succ_self m) h
      show (visitState m + 1) % 2 ^ 128 = m + 1
      rw [ih hm]
      exact Nat.mod_eq_of_lt h
  intro n hn hlt
  have h1 : n - 1 < 2 ^ 128 := lt_of_le_of_lt (Nat.sub_le n 1) hlt
  show "Visit count: " ++ toString ((visitState (n - 1) + 1) % 2 ^ 128) = _
  rw [hstate (n - 1) h1, Nat.sub_add_cancel hn, Nat.mod_eq_of_lt hlt]

/-- Witness for C7: the third call answers `"Visit count: 3"`. -/
theorem visit_count_spec_witness :
    (increment_count (visitState (3 - 1))).2 = "Visit count: " ++ toString 3 :=
  visit_count_spec.2 3 (by decide) (by decide)

/-- C8 counterexample: a malformed play id (`/songs/play/abc`) is rejected
by the `Path<i64>` extractor before the handler runs, with status 400, not
200 — so not every failure case of the five routes answers 200. -/
theorem all_200_counterexample :
    (playRoute [] "abc").1.status = 400 ∧
    ¬ (playRoute [] "abc").1.status = 200 := by
  exact ⟨by decide, by decide⟩

/-- C8 amended: every response constructed by the five handler functions
carries status 200 — including every query error, the zero-rows insert
case, and a nonexistent play id — and no handler branch signals an error
through a non-200 status; only a malformed (non-integer) play id never
reaches the handler: the path extractor rejects it with status 400. -/
theorem all_200_spec :
    (∀ res : Except String (Option Row),
        (jsonResponse (addRespond res)).status = 200) ∧
    (∀ res : Except String (List Row),
        (jsonResponse (searchRespond res)).status = 200) ∧
    (∀ res : Except String (Option Row),
        (jsonResponse (playRespond res)).status = 200) ∧
    (textResponse welcome).status = 200 ∧
    (∀ c : Nat, (textResponse (increment_count c).2).status = 200) ∧
    (∀ (db : List Row) (seg : String) (i : Int), parseI64 seg = some i →
        (playRoute db seg).1.status = 200) ∧
    (∀ (db : List Row) (seg : String), parseI64 seg = none →
        (playRoute db seg).1.status = 400) := by
  refine ⟨fun _ => rfl, fun _ => rfl, fun _ => rfl, rfl, fun _ => rfl,
    ?_, ?_⟩
  · intro db seg i h
    show (playRoute db seg).1.status = 200
    unfold playRoute
    rw [h]
    rfl
  · intro db seg h
    unfold playRoute
    rw [h]

/-- Witness for the C8 amended theorem: a well-formed play id reaches the
handler and the response status is 200. -/
theorem all_200_spec_witness : (playRoute [] "5").1.status = 200 :=
  all_200_spec.2.2.2.2.2.1 [] "5" 5 (by decide)

/-- C10: search values are wrapped as `%value%` without escaping LIKE
metacharacters: the value `"%"` makes the filter match every stored song
(even ones whose field does not contain a literal percent sign), and the
value `"_"` matches any nonempty field via `%_%`. -/
theorem like_metachar_spec :
    (∀ (db : List Row) (i pc : Option Int),
        searchQuery db ⟨i, some "%", none, none, pc⟩ = db) ∧
    (∀ f : String, f ≠ "" → optLike (some "_") f = true) ∧
    rowMatches ⟨none, some "%", none, none, none⟩ ⟨1, "abc", "def", "ghi", 0⟩
      = true ∧
    ¬ ("%".data <:+: "abc".data) := by
  refine ⟨?_, ?_, by decide, by decide⟩
  · intro db i pc
    apply List.filter_eq_self.mpr
    intro r hr
    show (optLike (some "%") r.title && optLike none r.artist &&
        optLike none r.genre) = true
    have : optLike (some "%") r.title = true := ciLike_wrap_pct r.title
    rw [this]
    rfl
  · intro f hf
    exact ciLike_wrap_underscore f hf

/-- Witness for C10: the nonempty field `"x"` is matched by the filter
value `"_"`. -/
theorem like_metachar_spec_witness : optLike (some "_") "x" = true :=
  like_metachar_spec.2.1 "x" (by decide)

/-- C9: a database error during search is reported as the JSON string
`"Failed to add song: {e}"`, byte for byte the same response the add
endpoint gives for its query errors. -/
theorem search_error_label_spec (e : String) :
    searchRespond (.error e) = Json.str ("Failed to add song: " ++ e) ∧
    searchRespond (.error e) = addRespond (.error e) :=
  ⟨rfl, rfl⟩

end MusicWebServer
